import Mathlib

/-!
Shallow embedding of `src/main.py`: a small in-memory library catalog with
`Book`/`Journal` items, a `Library` collection (add, remove, filter by
author) and a `FileManager` persistence adapter (JSON save/load).

Items are a closed sum: `Journal` extends `Book` with a `volume` field.
Python `==` on items resolves through `Book.__eq__` / `Journal.__eq__`
with the reflected-operand rule (when the right operand's class is a
proper subclass of the left's and overrides `__eq__`, that override is
tried first); both method bodies are embedded separately so that the
dispatch itself stays visible.
-/

/-- LibraryItem mirrors the `Book`/`Journal` class hierarchy of
`src/main.py` as a closed sum: `Book` has title, author, year;
`Journal` carries those plus a volume string. -/
inductive LibraryItem where
  | Book (title author : String) (year : Int)
  | Journal (title author : String) (year : Int) (volume : String)
deriving DecidableEq, Repr

namespace LibraryItem

/-- Field accessor for `self._title`. -/
def titleOf : LibraryItem → String
  | .Book t _ _ => t
  | .Journal t _ _ _ => t

/-- Field accessor for `self._author` (exposed as the `author` property,
which Journals inherit from Book). -/
def author : LibraryItem → String
  | .Book _ a _ => a
  | .Journal _ a _ _ => a

/-- Field accessor for `self._year`. -/
def yearOf : LibraryItem → Int
  | .Book _ _ y => y
  | .Journal _ _ y _ => y

/-- Field accessor for `self._volume`; only Journal instances carry it. -/
def volumeOf : LibraryItem → Option String
  | .Book _ _ _ => none
  | .Journal _ _ _ v => some v

/-- Python `isinstance(x, Book)`: every item is a Book instance, since
Journal subclasses Book. -/
def isBookInstance : LibraryItem → Bool := fun _ => true

/-- Python `isinstance(x, Journal)`: only the Journal variant. -/
def isJournalInstance : LibraryItem → Bool
  | .Book _ _ _ => false
  | .Journal _ _ _ _ => true

/-- Body of `Book.__eq__` (src/main.py lines 41-48): `other` must be a
Book instance (Journals included), then `_title`, `_author`, `_year` are
compared by value. -/
def bookEqMethod (self other : LibraryItem) : Bool :=
  isBookInstance other &&
    (titleOf self == titleOf other &&
     author self == author other &&
     yearOf self == yearOf other)

/-- Body of `Journal.__eq__` (src/main.py lines 63-66): `other` must be a
Journal instance, then `super().__eq__(other)` and `_volume` comparison. -/
def journalEqMethod (self other : LibraryItem) : Bool :=
  isJournalInstance other &&
    (bookEqMethod self other && volumeOf self == volumeOf other)

/-- Result of the Python expression `x == y` on two items: when `x` is a
plain Book and `y` a Journal, Journal is a proper subclass of Book
overriding `__eq__`, so the reflected `Journal.__eq__(y, x)` is consulted
first and its `False` (not `NotImplemented`) is final; otherwise the left
operand's own `__eq__` decides. -/
def itemEq (x y : LibraryItem) : Bool :=
  match x, y with
  | .Book _ _ _, .Journal _ _ _ _ => journalEqMethod y x
  | .Book _ _ _, .Book _ _ _ => bookEqMethod x y
  | .Journal _ _ _ _, _ => journalEqMethod x y

/-- Body of `Book.get_info` / `Journal.get_info` (src/main.py lines 38-39
and 60-61): the f-string rendered for each variant; Python `str` on an
int prints like Lean `toString` on `Int`. -/
def get_info : LibraryItem → String
  | .Book t a y =>
      "Book: " ++ t ++ " by " ++ a ++ " (" ++ toString y ++ ")"
  | .Journal t a y v =>
      "Journal: " ++ t ++ " by " ++ a ++ " (" ++ toString y ++ "), volume: " ++ v

end LibraryItem

namespace Library

open LibraryItem

/-- State of a `Library`: its `_items` list, in insertion order. -/
abbrev State := List LibraryItem

/-- Body of `Library.add_book` (src/main.py lines 121-123):
`self._items.append(item)`. The `log_add` decorator only emits a log
line, leaving the state untouched. -/
def add_book (items : State) (item : LibraryItem) : State :=
  items ++ [item]

/-- Python `list.remove(item)` on the items list: drop the first element
that compares equal to `item`, leaving everything else in place. -/
def removeFirst : State → LibraryItem → State
  | [], _ => []
  | x :: xs, item => if itemEq x item then xs else x :: removeFirst xs item

/-- Body of `Library.remove_book` with its `ensure_exists` decorator
(src/main.py lines 98-104 and 125-128): if no element of `_items`
compares equal to `item`, raise `ValueError` carrying the item's
description; otherwise `self._items.remove(item)` drops the first
match. -/
def remove_book (items : State) (item : LibraryItem) :
    Except String State :=
  if items.any (fun x => itemEq x item) then
    Except.ok (removeFirst items item)
  else
    Except.error ("Cannot remove—item not found: " ++ get_info item)

/-- Body of `Library.books_by_author` (src/main.py lines 116-119): the
generator yields, in order, the items whose `author` attribute equals the
given string (both variants expose `author`, so `getattr` never falls
back to `None`). -/
def books_by_author (items : State) (a : String) : List LibraryItem :=
  items.filter (fun it => author it == a)

end Library

namespace FileManager

open LibraryItem

/-- JSON scalar values that appear in the persisted records: the program
only ever stores strings and integers in them. -/
inductive JVal where
  | jstr (s : String)
  | jint (n : Int)
deriving DecidableEq, Repr

/-- A JSON object, as an ordered list of key/value pairs. -/
abbrev JRecord := List (String × JVal)

/-- Python `entry[k]` for a dict `entry`: the value at key `k`, or absent
(`KeyError`) when no pair carries that key. -/
def lookupField (r : JRecord) (k : String) : Option JVal :=
  (r.find? (fun p => p.1 == k)).map Prod.snd

/-- Contents visible to `FileManager.load` at its path: the file may be
absent (open raises an IOError), hold text that is not a JSON array
(`json.load` raises a parse error), or hold a JSON array of objects. -/
inductive FileState where
  | missing
  | invalid
  | json (recs : List JRecord)

/-- Errors `FileManager.load` can surface, per the taxonomy the spec uses
for the Python exceptions (`OSError` from `open`, `JSONDecodeError` or a
missing-key failure while rebuilding a record). -/
inductive LoadError where
  | ioError
  | parseError
deriving DecidableEq, Repr

/-- Serialization of one item in `FileManager.save` (src/main.py lines
144-154): a dict with `type` = the class name, then `title`, `author`,
`year`, plus `volume` when the item is a Journal. -/
def saveEntry : LibraryItem → JRecord
  | .Book t a y =>
      [("type", JVal.jstr "Book"), ("title", JVal.jstr t),
       ("author", JVal.jstr a), ("year", JVal.jint y)]
  | .Journal t a y v =>
      [("type", JVal.jstr "Journal"), ("title", JVal.jstr t),
       ("author", JVal.jstr a), ("year", JVal.jint y),
       ("volume", JVal.jstr v)]

/-- Body of `FileManager.save` as a pure data transformation: the JSON
array written is the item list mapped through `saveEntry`, in order. -/
def save (items : List LibraryItem) : List JRecord :=
  items.map saveEntry

/-- Effect of `FileManager.save` on the file: opening with mode `'w'`
truncates, so whatever was at the path before is replaced by the JSON
array of serialized records. -/
def saveFile (items : List LibraryItem) (_prev : FileState) : FileState :=
  FileState.json (save items)

/-- Reconstruction of one record in `FileManager.load` (src/main.py lines
164-170): `entry['type']` is read (a missing key aborts the load); a
`'Book'` type requires string `title`/`author` and integer `year`, a
`'Journal'` type additionally a string `volume` (a missing or ill-typed
required field aborts the load); any other type value produces nothing. -/
def loadEntry (r : JRecord) : Except LoadError (Option LibraryItem) :=
  match lookupField r "type" with
  | none => Except.error LoadError.parseError
  | some tv =>
    if tv = JVal.jstr "Book" then
      match lookupField r "title", lookupField r "author",
            lookupField r "year" with
      | some (JVal.jstr t), some (JVal.jstr a), some (JVal.jint y) =>
          Except.ok (some (LibraryItem.Book t a y))
      | _, _, _ => Except.error LoadError.parseError
    else if tv = JVal.jstr "Journal" then
      match lookupField r "title", lookupField r "author",
            lookupField r "year", lookupField r "volume" with
      | some (JVal.jstr t), some (JVal.jstr a), some (JVal.jint y),
        some (JVal.jstr v) =>
          Except.ok (some (LibraryItem.Journal t a y v))
      | _, _, _, _ => Except.error LoadError.parseError
    else
      Except.ok none

/-- The `for entry in data` loop of `FileManager.load`: records are
processed left to right; the first failure aborts the whole load and the
partially built list is discarded, as a raised exception does. -/
def loadRecords : List JRecord → Except LoadError (List LibraryItem)
  | [] => Except.ok []
  | r :: rs =>
    match loadEntry r with
    | Except.error e => Except.error e
    | Except.ok o =>
      match loadRecords rs with
      | Except.error e => Except.error e
      | Except.ok rest =>
        match o with
        | some it => Except.ok (it :: rest)
        | none => Except.ok rest

/-- Body of `FileManager.load` (src/main.py lines 158-172): opening a
missing path raises an IO error, non-JSON content a parse error, and a
JSON array is folded through `loadEntry`. -/
def load : FileState → Except LoadError (List LibraryItem)
  | FileState.missing => Except.error LoadError.ioError
  | FileState.invalid => Except.error LoadError.parseError
  | FileState.json recs => loadRecords recs

end FileManager

/-! Helper lemmas shared by the claim theorems. -/

namespace LibraryItem

/-- Dispatched item equality is reflexive. -/
theorem itemEq_refl (x : LibraryItem) : itemEq x x = true := by
  cases x <;>
    simp [itemEq, bookEqMethod, journalEqMethod, isBookInstance,
      isJournalInstance, titleOf, author, yearOf, volumeOf]

/-- Dispatched item equality coincides with structural equality of the
sum type: same variant and all fields equal. -/
theorem itemEq_iff_eq (x y : LibraryItem) : itemEq x y = true ↔ x = y := by
  cases x <;> cases y <;>
    simp [itemEq, bookEqMethod, journalEqMethod, isBookInstance,
      isJournalInstance, titleOf, author, yearOf, volumeOf] <;>
    tauto

end LibraryItem

namespace FileManager

open LibraryItem

/-- Loading back a record produced by `saveEntry` reconstructs exactly
the original item. -/
theorem loadEntry_saveEntry (it : LibraryItem) :
    loadEntry (saveEntry it) = Except.ok (some it) := by
  cases it <;> rfl

/-- Loading back a record list produced by `save` reconstructs exactly
the original item list. -/
theorem loadRecords_save (items : List LibraryItem) :
    loadRecords (save items) = Except.ok items := by
  induction items with
  | nil => rfl
  | cons it rest ih =>
      simp [save] at ih ⊢
      simp [loadRecords, loadEntry_saveEntry, ih]

end FileManager

/-! Claim theorems. -/

/-- C1: saving any sequence of Book/Journal items and loading the
resulting file yields a sequence whose elements are pairwise structurally
equal (per the dispatched item equality) to the originals, in the same
order; in particular the empty sequence round-trips to the empty
sequence. -/
theorem load_save_round_trip (items : List LibraryItem) :
    (∃ out,
        FileManager.load (FileManager.FileState.json (FileManager.save items)) =
          Except.ok out ∧
        List.Forall₂ (fun x y => LibraryItem.itemEq x y = true) out items) ∧
    FileManager.load (FileManager.FileState.json (FileManager.save [])) =
      Except.ok [] := by
  refine ⟨⟨items, FileManager.loadRecords_save items, ?_⟩, rfl⟩
  induction items with
  | nil => exact List.Forall₂.nil
  | cons it rest ih => exact List.Forall₂.cons (LibraryItem.itemEq_refl it) ih

/-- C2: a Book equals an identically-fielded Book; a Journal equals
another Journal iff title, author, year and volume all match; and a
Book/Journal comparison with all shared fields equal is false in both
directions, for any volume. -/
theorem item_equality_spec (t a : String) (y : Int) (v : String)
    (t2 a2 : String) (y2 : Int) (v2 : String) :
    LibraryItem.itemEq (.Book t a y) (.Book t a y) = true ∧
    (LibraryItem.itemEq (.Journal t a y v) (.Journal t2 a2 y2 v2) = true ↔
      (t = t2 ∧ a = a2 ∧ y = y2 ∧ v = v2)) ∧
    LibraryItem.itemEq (.Book t a y) (.Journal t a y v) = false ∧
    LibraryItem.itemEq (.Journal t a y v) (.Book t a y) = false := by
  refine ⟨?_, ?_, ?_, ?_⟩ <;>
    simp [LibraryItem.itemEq, LibraryItem.bookEqMethod,
      LibraryItem.journalEqMethod, LibraryItem.isBookInstance,
      LibraryItem.isJournalInstance, LibraryItem.titleOf, LibraryItem.author,
      LibraryItem.yearOf, LibraryItem.volumeOf]
  tauto

/-- C5: `get_info` is a pure total function of the fields, rendering
exactly the documented Book and Journal formats, and calling it twice on
the same item yields identical strings. -/
theorem get_info_spec (t a : String) (y : Int) (v : String) :
    LibraryItem.get_info (.Book t a y) =
      "Book: " ++ t ++ " by " ++ a ++ " (" ++ toString y ++ ")" ∧
    LibraryItem.get_info (.Journal t a y v) =
      "Journal: " ++ t ++ " by " ++ a ++ " (" ++ toString y ++ "), volume: " ++ v ∧
    ∀ i : LibraryItem, LibraryItem.get_info i = LibraryItem.get_info i :=
  ⟨rfl, rfl, fun _ => rfl⟩

/-- C9: `add_book` never fails and appends the item at the end: the first
`items.length` elements of the result are the old sequence unchanged and
in order, and the remainder is exactly the new item. -/
theorem add_book_spec (items : Library.State) (item : LibraryItem) :
    (Library.add_book items item).length = items.length + 1 ∧
    (Library.add_book items item).take items.length = items ∧
    (Library.add_book items item).drop items.length = [item] := by
  refine ⟨by simp [Library.add_book], ?_, ?_⟩ <;>
    simp [Library.add_book, List.take_left, List.drop_left]

/-- C10: the body of `Book.__eq__` applied directly to a Journal with the
same title, author and year returns true (isinstance(other, Book) holds
for Journals); the actual dispatched comparison is nonetheless false in
both directions only because `Journal.__eq__`, which insists the operand
be a Journal, is the method consulted in every real comparison. -/
theorem bookEqMethod_cross_variant (t a : String) (y : Int) (v : String) :
    LibraryItem.bookEqMethod (.Book t a y) (.Journal t a y v) = true ∧
    LibraryItem.journalEqMethod (.Journal t a y v) (.Book t a y) = false ∧
    LibraryItem.itemEq (.Book t a y) (.Journal t a y v) = false ∧
    LibraryItem.itemEq (.Journal t a y v) (.Book t a y) = false := by
  refine ⟨?_, ?_, ?_, ?_⟩ <;>
    simp [LibraryItem.itemEq, LibraryItem.bookEqMethod,
      LibraryItem.journalEqMethod, LibraryItem.isBookInstance,
      LibraryItem.isJournalInstance, LibraryItem.titleOf, LibraryItem.author,
      LibraryItem.yearOf, LibraryItem.volumeOf]

/-- Dropping the first match removes exactly the first structurally-equal
occurrence: everything before it and everything after it survive. -/
theorem removeFirst_append (pre post : List LibraryItem)
    (x item : LibraryItem) (hx : LibraryItem.itemEq x item = true)
    (hpre : ∀ p ∈ pre, LibraryItem.itemEq p item = false) :
    Library.removeFirst (pre ++ x :: post) item = pre ++ post := by
  induction pre with
  | nil => simp [Library.removeFirst, hx]
  | cons p ps ih =>
      have hp := hpre p (by simp)
      simp only [List.cons_append, Library.removeFirst, hp]
      simp [ih (fun q hq => hpre q (by simp [hq]))]

/-- When some element matches, `removeFirst` shrinks the list by exactly
one element. -/
theorem removeFirst_length (items : Library.State) (item : LibraryItem)
    (h : items.any (fun x => LibraryItem.itemEq x item) = true) :
    (Library.removeFirst items item).length + 1 = items.length := by
  induction items with
  | nil => simp at h
  | cons x xs ih =>
      by_cases hx : LibraryItem.itemEq x item = true
      · simp [Library.removeFirst, hx]
      · have hx2 : LibraryItem.itemEq x item = false := by
          simpa using hx
        have hxs : xs.any (fun y => LibraryItem.itemEq y item) = true := by
          simpa [hx2] using h
        have := ih hxs
        simp only [Library.removeFirst, hx2, Bool.false_eq_true, if_false,
          List.length_cons]
        omega

/-- C3: `remove_book` fails with the not-found error naming the item's
description exactly when no structurally-equal element is present (so on
an empty catalog or for an item never added); when a match exists it
deletes only the first matching occurrence, so the result is one element
shorter, never more. -/
theorem remove_book_spec (items : Library.State) (item : LibraryItem) :
    ((∀ x ∈ items, LibraryItem.itemEq x item = false) →
      Library.remove_book items item =
        Except.error
          ("Cannot remove—item not found: " ++ LibraryItem.get_info item)) ∧
    (∀ pre x post, items = pre ++ x :: post →
      LibraryItem.itemEq x item = true →
      (∀ p ∈ pre, LibraryItem.itemEq p item = false) →
      Library.remove_book items item = Except.ok (pre ++ post)) ∧
    (∀ out, Library.remove_book items item = Except.ok out →
      out.length + 1 = items.length) := by
  refine ⟨?_, ?_, ?_⟩
  · intro hnone
    have hany : items.any (fun x => LibraryItem.itemEq x item) = false := by
      simp [List.any_eq_false]
      intro x hx
      simp [hnone x hx]
    simp [Library.remove_book, hany]
  · intro pre x post hsplit hx hpre
    have hany : items.any (fun z => LibraryItem.itemEq z item) = true := by
      subst hsplit
      refine List.any_eq_true.mpr ⟨x, by simp, hx⟩
    subst hsplit
    simp [Library.remove_book, hany, removeFirst_append pre post x item hx hpre]
  · intro out hout
    by_cases hany : items.any (fun z => LibraryItem.itemEq z item) = true
    · have : out = Library.removeFirst items item := by
        simpa [Library.remove_book, hany] using hout.symm
      rw [this]
      exact removeFirst_length items item hany
    · simp [Library.remove_book, hany] at hout

/-- Witness for C3: removal on an empty catalog fails with the not-found
error, and removal over a two-element catalog of duplicates deletes only
the first occurrence. -/
theorem remove_book_spec_witness :
    Library.remove_book [] (LibraryItem.Book "Dune" "Herbert" 1965) =
      Except.error ("Cannot remove—item not found: " ++
        LibraryItem.get_info (LibraryItem.Book "Dune" "Herbert" 1965)) ∧
    Library.remove_book
        [LibraryItem.Book "Dune" "Herbert" 1965,
         LibraryItem.Book "Dune" "Herbert" 1965]
        (LibraryItem.Book "Dune" "Herbert" 1965) =
      Except.ok [LibraryItem.Book "Dune" "Herbert" 1965] := by
  constructor
  · exact (remove_book_spec [] (LibraryItem.Book "Dune" "Herbert" 1965)).1
      (by simp)
  · exact (remove_book_spec
        [LibraryItem.Book "Dune" "Herbert" 1965,
         LibraryItem.Book "Dune" "Herbert" 1965]
        (LibraryItem.Book "Dune" "Herbert" 1965)).2.1
      [] (LibraryItem.Book "Dune" "Herbert" 1965)
      [LibraryItem.Book "Dune" "Herbert" 1965] rfl
      (LibraryItem.itemEq_refl (LibraryItem.Book "Dune" "Herbert" 1965))
      (by simp)

/-- C4: `books_by_author` yields exactly the catalog items whose author
field equals the given string — an in-order sublist of the catalog,
bounded by the catalog size, all of whose elements carry that author, and
containing every occurrence of every item with that author (and nothing
with any other author). -/
theorem books_by_author_spec (items : Library.State) (a : String) :
    List.Sublist (Library.books_by_author items a) items ∧
    (Library.books_by_author items a).length ≤ items.length ∧
    (Library.books_by_author items a).all
      (fun x => LibraryItem.author x == a) = true ∧
    ∀ x, (Library.books_by_author items a).count x =
      if LibraryItem.author x = a then items.count x else 0 := by
  refine ⟨List.filter_sublist items, List.length_filter_le _ items, ?_, ?_⟩
  · rw [List.all_eq_true]
    intro x hx
    exact (List.mem_filter.mp hx).2
  · intro x
    by_cases hax : LibraryItem.author x = a
    · rw [if_pos hax]
      exact List.count_filter (by simp [hax])
    · rw [if_neg hax]
      rw [List.count_eq_zero]
      intro hmem
      exact hax (by simpa using (List.mem_filter.mp hmem).2)

/-- C6: `save` writes, in sequence order and replacing whatever the file
held before, one record per item whose keys are exactly type/title/
author/year for a Book and those plus volume for a Journal, with the
discriminator exactly "Book" or "Journal". -/
theorem save_spec (t a : String) (y : Int) (v : String)
    (items : List LibraryItem) (prev : FileManager.FileState) :
    FileManager.saveFile items prev =
      FileManager.FileState.json (items.map FileManager.saveEntry) ∧
    (FileManager.saveEntry (.Book t a y)).map Prod.fst =
      ["type", "title", "author", "year"] ∧
    (FileManager.saveEntry (.Journal t a y v)).map Prod.fst =
      ["type", "title", "author", "year", "volume"] ∧
    FileManager.lookupField (FileManager.saveEntry (.Book t a y)) "type" =
      some (FileManager.JVal.jstr "Book") ∧
    FileManager.lookupField (FileManager.saveEntry (.Journal t a y v)) "type" =
      some (FileManager.JVal.jstr "Journal") ∧
    FileManager.lookupField (FileManager.saveEntry (.Book t a y)) "title" =
      some (FileManager.JVal.jstr t) ∧
    FileManager.lookupField (FileManager.saveEntry (.Book t a y)) "author" =
      some (FileManager.JVal.jstr a) ∧
    FileManager.lookupField (FileManager.saveEntry (.Book t a y)) "year" =
      some (FileManager.JVal.jint y) ∧
    FileManager.lookupField (FileManager.saveEntry (.Journal t a y v)) "volume" =
      some (FileManager.JVal.jstr v) :=
  ⟨rfl, rfl, rfl, rfl, rfl, rfl, rfl, rfl, rfl⟩

/-- C7: a record whose type value is recognized as neither "Book" nor
"Journal" is silently skipped by `load`: it contributes no item and
raises no error, so loading with the record present equals loading
without it. -/
theorem load_skips_unrecognized (r : FileManager.JRecord)
    (rest : List FileManager.JRecord) (tv : FileManager.JVal)
    (h1 : FileManager.lookupField r "type" = some tv)
    (h2 : tv ≠ FileManager.JVal.jstr "Book")
    (h3 : tv ≠ FileManager.JVal.jstr "Journal") :
    FileManager.load (FileManager.FileState.json (r :: rest)) =
      FileManager.load (FileManager.FileState.json rest) := by
  have he : FileManager.loadEntry r = Except.ok none := by
    simp [FileManager.loadEntry, h1, h2, h3]
  show FileManager.loadRecords (r :: rest) = FileManager.loadRecords rest
  rw [FileManager.loadRecords, he]
  cases FileManager.loadRecords rest <;> rfl

/-- Witness for C7: a file holding one unrecognized "Magazine" record and
one valid "Book" record loads to exactly the one reconstructed Book. -/
theorem load_skips_unrecognized_witness :
    FileManager.load (FileManager.FileState.json
      [[("type", FileManager.JVal.jstr "Magazine"),
        ("title", FileManager.JVal.jstr "Time")],
       FileManager.saveEntry (LibraryItem.Book "Dune" "Herbert" 1965)]) =
      Except.ok [LibraryItem.Book "Dune" "Herbert" 1965] := by
  rw [load_skips_unrecognized
    [("type", FileManager.JVal.jstr "Magazine"),
     ("title", FileManager.JVal.jstr "Time")]
    [FileManager.saveEntry (LibraryItem.Book "Dune" "Herbert" 1965)]
    (FileManager.JVal.jstr "Magazine") rfl (by decide) (by decide)]
  rfl

/-- When a record announces a recognized type but lacks one of the fields
that type requires, rebuilding it fails with a parse error. -/
theorem loadEntry_error_of_missing_field (r : FileManager.JRecord)
    (h : (FileManager.lookupField r "type" =
            some (FileManager.JVal.jstr "Book") ∧
          (FileManager.lookupField r "title" = none ∨
           FileManager.lookupField r "author" = none ∨
           FileManager.lookupField r "year" = none)) ∨
         (FileManager.lookupField r "type" =
            some (FileManager.JVal.jstr "Journal") ∧
          (FileManager.lookupField r "title" = none ∨
           FileManager.lookupField r "author" = none ∨
           FileManager.lookupField r "year" = none ∨
           FileManager.lookupField r "volume" = none))) :
    FileManager.loadEntry r = Except.error FileManager.LoadError.parseError := by
  rcases h with ⟨ht, hm⟩ | ⟨ht, hm⟩ <;>
    (rw [FileManager.loadEntry, ht]
     repeat' split
     all_goals simp_all)

/-- C8: `load` fails with an IO error on a missing/unreadable path, with
a parse error on content that is not valid JSON, and with a parse error
when a record of recognized type lacks a required field; no items are
returned in any failure case. -/
theorem load_failure_spec (r : FileManager.JRecord)
    (rest : List FileManager.JRecord)
    (h : (FileManager.lookupField r "type" =
            some (FileManager.JVal.jstr "Book") ∧
          (FileManager.lookupField r "title" = none ∨
           FileManager.lookupField r "author" = none ∨
           FileManager.lookupField r "year" = none)) ∨
         (FileManager.lookupField r "type" =
            some (FileManager.JVal.jstr "Journal") ∧
          (FileManager.lookupField r "title" = none ∨
           FileManager.lookupField r "author" = none ∨
           FileManager.lookupField r "year" = none ∨
           FileManager.lookupField r "volume" = none))) :
    FileManager.load FileManager.FileState.missing =
      Except.error FileManager.LoadError.ioError ∧
    FileManager.load FileManager.FileState.invalid =
      Except.error FileManager.LoadError.parseError ∧
    FileManager.load (FileManager.FileState.json (r :: rest)) =
      Except.error FileManager.LoadError.parseError := by
  refine ⟨rfl, rfl, ?_⟩
  show FileManager.loadRecords (r :: rest) = _
  rw [FileManager.loadRecords, loadEntry_error_of_missing_field r h]

/-- Witness for C8: a record typed "Book" with no title field makes the
whole load fail with a parse error. -/
theorem load_failure_spec_witness :
    FileManager.load (FileManager.FileState.json
      [[("type", FileManager.JVal.jstr "Book")]]) =
      Except.error FileManager.LoadError.parseError :=
  (load_failure_spec [("type", FileManager.JVal.jstr "Book")] []
    (Or.inl ⟨rfl, Or.inl rfl⟩)).2.2
